import Mathlib

/-!
# ST7789V display bring-up driver (`drivers/video/st7789v.c`)

A shallow embedding of the driver.  Every call the driver makes into the rest
of U-Boot (SPI core, GPIO, device model, delay, console output) is recorded as
an `Event` appended to a trace, and every value such a call hands back is read
from a `World`, whose answers may depend on the whole trace so far.  The driver
functions are state-passing functions over the trace and keep the names of the
C functions.
-/

namespace St7789v

/-! ## Constants -/

/-- Macro `PWR_ON_DELAY_MSECS` of the driver (defined, never used). -/
def PWR_ON_DELAY_MSECS : Nat := 120

/-- Macro `HSD20_IPS` of the driver, with the value the source ships. -/
def HSD20_IPS : Nat := 1

/-- Command `PORCTRL` of `enum st7789v_command`. -/
def PORCTRL : Nat := 0xB2
/-- Command `GCTRL` of `enum st7789v_command`. -/
def GCTRL : Nat := 0xB7
/-- Command `VCOMS` of `enum st7789v_command`. -/
def VCOMS : Nat := 0xBB
/-- Command `VDVVRHEN` of `enum st7789v_command`. -/
def VDVVRHEN : Nat := 0xC2
/-- Command `VRHS` of `enum st7789v_command`. -/
def VRHS : Nat := 0xC3
/-- Command `VDVS` of `enum st7789v_command`. -/
def VDVS : Nat := 0xC4
/-- Command `VCMOFSET` of `enum st7789v_command`. -/
def VCMOFSET : Nat := 0xC5
/-- Command `PWCTRL1` of `enum st7789v_command`. -/
def PWCTRL1 : Nat := 0xD0
/-- Command `PVGAMCTRL` of `enum st7789v_command`. -/
def PVGAMCTRL : Nat := 0xE0
/-- Command `NVGAMCTRL` of `enum st7789v_command`. -/
def NVGAMCTRL : Nat := 0xE1

/-- Modelled from the spec: `MIPI_DCS_EXIT_SLEEP_MODE` of `mipi_display.h`,
a header that is not part of the sources at hand (exit-sleep command). -/
def MIPI_DCS_EXIT_SLEEP_MODE : Nat := 0x11
/-- Modelled from the spec: `MIPI_DCS_ENTER_INVERT_MODE` of `mipi_display.h`
(enter-invert-mode command). -/
def MIPI_DCS_ENTER_INVERT_MODE : Nat := 0x21
/-- Modelled from the spec: `MIPI_DCS_SET_DISPLAY_ON` of `mipi_display.h`
(display-on command). -/
def MIPI_DCS_SET_DISPLAY_ON : Nat := 0x29
/-- Modelled from the spec: `MIPI_DCS_SET_PIXEL_FORMAT` of `mipi_display.h`
(set-pixel-format command). -/
def MIPI_DCS_SET_PIXEL_FORMAT : Nat := 0x3A
/-- Modelled from the spec: `MIPI_DCS_PIXEL_FMT_16BIT` of `mipi_display.h`
(16-bit RGB565 pixel format). -/
def MIPI_DCS_PIXEL_FMT_16BIT : Nat := 5

/-- Modelled from the spec: `SPI_XFER_BEGIN` of `spi.h` (the begin flag of a
bus transfer), `BIT(0)`. -/
def SPI_XFER_BEGIN : Nat := 1
/-- Modelled from the spec: `SPI_XFER_END` of `spi.h` (the end flag of a bus
transfer), `BIT(1)`. -/
def SPI_XFER_END : Nat := 2

/-- Modelled from the spec: `ENOENT` of `errno.h` ("not found"). -/
def ENOENT : Int := 2
/-- Modelled from the spec: `ENODEV` of `errno.h` ("no such device"). -/
def ENODEV : Int := 19

/-- Modelled from the spec: `GPIOD_IS_OUT` of `asm-generic/gpio.h`
(direction = output), `BIT(1)`. -/
def GPIOD_IS_OUT : Nat := 2

/-! ## Data model -/

/-- The fields of `struct gpio_desc` the driver passes around. -/
structure gpio_desc where
  dev : Nat
  flags : Nat
  offset : Nat
  deriving DecidableEq, Repr

/-- Record `struct st7789v_lcd_priv`.  The timing descriptor is kept as its
sequence of words; `power_on_delay` is a `u32`. -/
structure st7789v_lcd_priv where
  timing : List Nat
  enable : gpio_desc
  panel_bpp : Int
  power_on_delay : Nat

/-- What the driver reads of a `struct udevice`: the parent's per-child data
(a `struct spi_slave *`, with `0` for `NULL`), the driver's private record and
the `u32` properties of the device's hardware-description node. -/
structure udevice where
  parent_priv : Nat
  priv : st7789v_lcd_priv
  node : String → Option Nat

/-- One call out of the driver.  `writeU8` marks the entry of `spi_write_u8`
with the slave and the `u8` it received; `xfer` is a `spi_xfer` call with its
bit length, the bytes it shifts out and its flags. -/
inductive Event where
  | writeU8 (slave : Nat) (val : Nat)
  | xfer (slave : Nat) (bitlen : Nat) (dout : List Nat) (flags : Nat)
  | claim (slave : Nat)
  | release (slave : Nat)
  | delay (msecs : Nat)
  | gpioSet (desc : gpio_desc) (value : Int)
  | gpioRequest (name : String) (index : Nat) (flags : Nat)
  | readU32 (name : String) (dflt : Nat)
  | lookup
  | debug (fmt : String) (arg : Int)
  | print (msg : String)
  deriving DecidableEq, Repr

/-- The environment of the driver: the build-time panel variant flag, the byte
order of the host, and the results of the calls into U-Boot, each a function of
the trace up to and including the call. -/
structure World where
  HSD20_IPS : Nat
  big_endian : Bool
  spi_claim_bus : List Event → Int
  spi_xfer : List Event → Int
  gpio_request_by_name : List Event → Int × gpio_desc
  uclass_get_device_by_driver : List Event → Int × udevice

/-! ## Helpers of the C environment -/

/-- Modelled from the spec: `htons` of the byte-order headers, which are not
part of the sources at hand: the 16-bit value whose representation in host
memory is the big-endian (network order) representation of `x`. -/
def htons (big_endian : Bool) (x : Nat) : Nat :=
  if big_endian then x % 65536 else (x % 256) * 256 + (x / 256) % 256

/-- The two bytes of an `unsigned short` in host memory, lowest address
first. -/
def store_u16 (big_endian : Bool) (x : Nat) : List Nat :=
  if big_endian then [(x / 256) % 256, x % 256] else [x % 256, (x / 256) % 256]

/-- The bytes a `spi_xfer` of `bitlen` bits shifts out of the buffer `dout`:
the first `bitlen / 8` bytes in memory. -/
def shifted_out (bitlen : Nat) (dout : List Nat) : List Nat :=
  dout.take (bitlen / 8)

/-- Macro `ARRAY_SIZE`. -/
def ARRAY_SIZE (a : List Nat) : Nat := a.length

/-- Modelled from the spec: macro `log_ret` of `log.h`; it hands its argument
back (and may log it). -/
def log_ret (ret : Int) : Int := ret

/-- Accessor `dev_get_parent_priv`. -/
def dev_get_parent_priv (dev : udevice) : Nat := dev.parent_priv

/-- Accessor `dev_get_priv`. -/
def dev_get_priv (dev : udevice) : st7789v_lcd_priv := dev.priv

/-- Modelled from the spec: `dev_read_u32_default` of `dm/read.h`, which is not
part of the sources at hand: the 32-bit value of the named field of the
device's hardware description, or the default when the field is absent. -/
def dev_read_u32_default (dev : udevice) (name : String) (dflt : Nat) : Nat :=
  match dev.node name with
  | some x => x % 4294967296
  | none => dflt

/-! ## The driver -/

/-- Function `spi_write_u8`. -/
def spi_write_u8 (w : World) (slave : Nat) (val : Nat) (tr : List Event) :
    Int × List Event :=
  let val := val % 256
  let tr := tr ++ [Event.writeU8 slave val]
  let buf8 := htons w.big_endian val % 65536
  let tr := tr ++ [Event.xfer slave 8 (shifted_out 8 (store_u16 w.big_endian buf8))
    (SPI_XFER_BEGIN ||| SPI_XFER_END)]
  let ret := w.spi_xfer tr
  if ret ≠ 0 then
    (ret, tr ++ [Event.debug "%s: Failed to send: %d\n" ret])
  else
    (ret, tr)

/-- Function `spi_write_u8_array`. -/
def spi_write_u8_array (w : World) (slave : Nat) (buff : List Nat) (size : Nat)
    (tr : List Event) : List Event :=
  (buff.take size).foldl (fun t b => (spi_write_u8 w slave b t).2) tr

/-- Function `init_display`. -/
def init_display (w : World) (slave : Nat) (tr : List Event) : List Event :=
  let ips (a b : Nat) : Nat := if w.HSD20_IPS ≠ 0 then a else b
  let tr := (spi_write_u8 w slave MIPI_DCS_EXIT_SLEEP_MODE tr).2
  let tr := tr ++ [Event.delay 120]
  let _pixel_format := [MIPI_DCS_SET_PIXEL_FORMAT, MIPI_DCS_PIXEL_FMT_16BIT]
  let tr := spi_write_u8_array w slave _pixel_format (ARRAY_SIZE _pixel_format) tr
  let _portctrl := [PORCTRL, ips 0x05 0x08, ips 0x05 0x08, 0x00, ips 0x33 0x22,
    ips 0x33 0x22]
  let tr := spi_write_u8_array w slave _portctrl (ARRAY_SIZE _portctrl) tr
  let _gctrl := [GCTRL, ips 0x75 0x35]
  let tr := spi_write_u8_array w slave _gctrl (ARRAY_SIZE _gctrl) tr
  let _vdvvrhen := [VDVVRHEN, 0x01, 0xFF]
  let tr := spi_write_u8_array w slave _vdvvrhen (ARRAY_SIZE _vdvvrhen) tr
  let _vrhs := [VRHS, ips 0x13 0x0B]
  let tr := spi_write_u8_array w slave _vrhs (ARRAY_SIZE _vrhs) tr
  let _vdvs := [VDVS, 0x20]
  let tr := spi_write_u8_array w slave _vdvs (ARRAY_SIZE _vdvs) tr
  let _vcoms := [VCOMS, ips 0x22 0x20]
  let tr := spi_write_u8_array w slave _vcoms (ARRAY_SIZE _vcoms) tr
  let _vcmofset := [VCMOFSET, 0x20]
  let tr := spi_write_u8_array w slave _vcmofset (ARRAY_SIZE _vcmofset) tr
  let _pwctrl1 := [PWCTRL1, 0xA4, 0xA1]
  let tr := spi_write_u8_array w slave _pwctrl1 (ARRAY_SIZE _pwctrl1) tr
  let tr := (spi_write_u8 w slave MIPI_DCS_SET_DISPLAY_ON tr).2
  if w.HSD20_IPS ≠ 0 then
    (spi_write_u8 w slave MIPI_DCS_ENTER_INVERT_MODE tr).2
  else
    tr

/-- Function `set_var`: an empty body. -/
def set_var (_slave : Nat) (tr : List Event) : List Event := tr

/-- Function `st7789v_spi_startup`. -/
def st7789v_spi_startup (w : World) (slave : Nat) (tr : List Event) :
    Int × List Event :=
  let tr := tr ++ [Event.claim slave]
  let ret := w.spi_claim_bus tr
  if ret ≠ 0 then
    (ret, tr)
  else
    let tr := init_display w slave tr
    let tr := set_var slave tr
    let tr := tr ++ [Event.release slave]
    (0, tr)

/-- Function `do_sitronixset`, the handler of the `sitronixset` command. -/
def do_sitronixset (w : World) (_flag : Int) (_argc : Int) (_argv : List String)
    (tr : List Event) : Int × List Event :=
  let tr := tr ++ [Event.lookup]
  let got := w.uclass_get_device_by_driver tr
  let ret := got.1
  let dev := got.2
  if ret ≠ 0 then
    (ret, tr ++ [Event.print "do_sitronixset: Could not get st7789v device\n"])
  else
    let slave := dev_get_parent_priv dev
    if slave = 0 then
      (-ENODEV, tr ++ [Event.print "do_sitronixset: No slave data\n"])
    else
      let tr := (st7789v_spi_startup w slave tr).2
      (0, tr)

/-- Function `st7789v_lcd_enable`. -/
def st7789v_lcd_enable (w : World) (dev : udevice) (_bpp : Int) (_edid : List Nat)
    (tr : List Event) : Int × List Event :=
  let slave := dev_get_parent_priv dev
  let priv := dev_get_priv dev
  let ret : Int := 0
  let tr := tr ++ [Event.gpioSet priv.enable 1]
  let tr := tr ++ [Event.delay priv.power_on_delay]
  let tr := (st7789v_spi_startup w slave tr).2
  (ret, tr)

/-- Function `st7789v_ofdata_to_platdata`: the returned code, the device with
its private record as the function leaves it, and the trace. -/
def st7789v_ofdata_to_platdata (w : World) (dev : udevice) (tr : List Event) :
    Int × udevice × List Event :=
  let priv := dev_get_priv dev
  let tr := tr ++ [Event.gpioRequest "enable-gpios" 0 GPIOD_IS_OUT]
  let got := w.gpio_request_by_name tr
  let ret := got.1
  let dev := { dev with priv := { priv with enable := got.2 } }
  let rest (tr : List Event) : Int × udevice × List Event :=
    let tr := tr ++ [Event.readU32 "power-on-delay" 10]
    let delay := dev_read_u32_default dev "power-on-delay" 10
    (0, { dev with priv := { dev.priv with power_on_delay := delay } }, tr)
  if ret ≠ 0 then
    let tr := tr ++ [Event.debug "%s: Warning: cannot get enable GPIO: ret=%d\n" ret]
    if ret ≠ -ENOENT then
      (log_ret ret, dev, tr)
    else
      rest tr
  else
    rest tr

/-! ## Projections of a trace -/

/-- The values handed to the byte transport `spi_write_u8`, in order. -/
def written (tr : List Event) : List Nat :=
  tr.filterMap fun e => match e with
    | Event.writeU8 _ v => some v
    | _ => none

/-- The `spi_xfer` calls of a trace, in order. -/
def transfers (tr : List Event) : List Event :=
  tr.filterMap fun e => match e with
    | Event.xfer s n d f => some (Event.xfer s n d f)
    | _ => none

/-- A byte write or a delay. -/
inductive Step where
  | write (val : Nat)
  | delay (msecs : Nat)
  deriving DecidableEq, Repr

/-- The byte writes and the delays of a trace, in order. -/
def steps (tr : List Event) : List Step :=
  tr.filterMap fun e => match e with
    | Event.writeU8 _ v => some (Step.write v)
    | Event.delay n => some (Step.delay n)
    | _ => none

/-- The bus events of a trace (claim, byte write with its transfer, release),
in order. -/
def bus_trace (tr : List Event) : List Event :=
  tr.filterMap fun e => match e with
    | Event.claim s => some (Event.claim s)
    | Event.release s => some (Event.release s)
    | Event.writeU8 s v => some (Event.writeU8 s v)
    | Event.xfer s n d f => some (Event.xfer s n d f)
    | _ => none

/-- The hardware effects of a trace (GPIO writes, delays and bus events), in
order: everything but console output, lookups and the entry marks of the byte
transport. -/
def effects (tr : List Event) : List Event :=
  tr.filterMap fun e => match e with
    | Event.claim s => some (Event.claim s)
    | Event.release s => some (Event.release s)
    | Event.xfer s n d f => some (Event.xfer s n d f)
    | Event.delay n => some (Event.delay n)
    | Event.gpioSet d v => some (Event.gpioSet d v)
    | _ => none

/-! ## The command stream as the specification words it -/

/-- The bring-up command stream as the specification lists it, for the IPS
variant (`ips = true`) and the non-IPS variant. -/
def command_stream (ips : Bool) : List Nat :=
  [MIPI_DCS_EXIT_SLEEP_MODE,
   MIPI_DCS_SET_PIXEL_FORMAT, MIPI_DCS_PIXEL_FMT_16BIT,
   PORCTRL] ++ (if ips then [0x05, 0x05, 0x00, 0x33, 0x33] else [0x08, 0x08, 0x00, 0x22, 0x22]) ++
  [GCTRL, if ips then 0x75 else 0x35,
   VDVVRHEN, 0x01, 0xFF,
   VRHS, if ips then 0x13 else 0x0B,
   VDVS, 0x20,
   VCOMS, if ips then 0x22 else 0x20,
   VCMOFSET, 0x20,
   PWCTRL1, 0xA4, 0xA1,
   MIPI_DCS_SET_DISPLAY_ON] ++ (if ips then [MIPI_DCS_ENTER_INVERT_MODE] else [])

/-- The `spi_xfer` call the byte transport makes for the value `val`. -/
def transfer_of (w : World) (slave : Nat) (val : Nat) : Event :=
  Event.xfer slave 8
    (shifted_out 8 (store_u16 w.big_endian (htons w.big_endian (val % 256) % 65536)))
    (SPI_XFER_BEGIN ||| SPI_XFER_END)

/-- The events one call of the byte transport leaves in the trace whatever the
transfer answers: the entry mark and the `spi_xfer` call. -/
def write_trace (w : World) (slave : Nat) (val : Nat) : List Event :=
  [Event.writeU8 slave (val % 256), transfer_of w slave val]

/-- The events of one run of the command sequencer apart from console output:
the exit-sleep write, the 120 ms delay, then the writes of the rest of the
command stream. -/
def init_trace (w : World) (slave : Nat) : List Event :=
  write_trace w slave MIPI_DCS_EXIT_SLEEP_MODE ++ [Event.delay 120] ++
    ((command_stream (decide (w.HSD20_IPS ≠ 0))).tail).flatMap (write_trace w slave)

/-! ## Concrete environments -/

/-- A device with bus handle `1`, enable GPIO at offset 7 and a power-on delay
of 0 ms, without a `power-on-delay` field in its description. -/
def dev0 : udevice :=
  { parent_priv := 1
    priv := { timing := [], enable := { dev := 3, flags := 2, offset := 7 },
              panel_bpp := 16, power_on_delay := 0 }
    node := fun _ => none }

/-- A little-endian host with the shipped panel variant on which every call
succeeds. -/
def world_ok : World :=
  { HSD20_IPS := HSD20_IPS
    big_endian := false
    spi_claim_bus := fun _ => 0
    spi_xfer := fun _ => 0
    gpio_request_by_name := fun _ => (0, { dev := 3, flags := 2, offset := 7 })
    uclass_get_device_by_driver := fun _ => (0, dev0) }

/-- The host of `world_ok` with a bus that cannot be claimed: `spi_claim_bus`
answers `-16` (busy). -/
def world_busy : World :=
  { world_ok with spi_claim_bus := fun _ => -16 }

/-- The host of `world_ok` with transfers that all fail: `spi_xfer` answers
`-5`. -/
def world_noisy : World :=
  { world_ok with spi_xfer := fun _ => -5 }

/-- The host of `world_ok` with big-endian byte order. -/
def world_big_endian : World :=
  { world_ok with big_endian := true }

/-- The host of `world_ok` on which the enable GPIO is not described:
`gpio_request_by_name` answers `-ENOENT`. -/
def world_no_gpio : World :=
  { world_ok with gpio_request_by_name := fun _ => (-2, { dev := 0, flags := 0, offset := 0 }) }

/-- The host of `world_ok` on which the GPIO lookup fails with `-22`. -/
def world_bad_gpio : World :=
  { world_ok with gpio_request_by_name := fun _ => (-22, { dev := 0, flags := 0, offset := 0 }) }

/-- The host of `world_ok` without a bound display device: the lookup answers
`-19`. -/
def world_no_device : World :=
  { world_ok with uclass_get_device_by_driver := fun _ => (-19, dev0) }

/-- The host of `world_ok` whose display device has no bus handle. -/
def world_no_slave : World :=
  { world_ok with uclass_get_device_by_driver := fun _ => (0, { dev0 with parent_priv := 0 }) }

/-- The device `dev0` holding a stale power-on delay of 77 ms, with the field
`power-on-delay = 0` in its hardware description. -/
def dev_delay0 : udevice :=
  { dev0 with
    priv := { dev0.priv with power_on_delay := 77 }
    node := fun name => if name = "power-on-delay" then some 0 else none }

/-! ## Trace lemmas -/

theorem filterMap_spi_write_u8 {β : Type} (f : Event → Option β)
    (hf : ∀ fmt a, f (Event.debug fmt a) = none)
    (w : World) (slave val : Nat) (tr : List Event) :
    (spi_write_u8 w slave val tr).2.filterMap f
      = tr.filterMap f ++ (write_trace w slave val).filterMap f := by
  have hd : ∀ fmt a, [Event.debug fmt a].filterMap f = [] := by
    intro fmt a
    simp [List.filterMap_cons, hf]
  simp only [spi_write_u8, write_trace, transfer_of]
  split_ifs
  · simp only [List.filterMap_append, hd, List.append_nil, List.append_assoc]
    congr 1
    rw [← List.filterMap_append]
    rfl
  · simp only [List.filterMap_append, List.append_assoc]
    congr 1
    rw [← List.filterMap_append]
    rfl

theorem filterMap_foldl_write {β : Type} (f : Event → Option β)
    (hf : ∀ fmt a, f (Event.debug fmt a) = none)
    (w : World) (slave : Nat) (l : List Nat) (tr : List Event) :
    (l.foldl (fun t b => (spi_write_u8 w slave b t).2) tr).filterMap f
      = tr.filterMap f ++ (l.flatMap (write_trace w slave)).filterMap f := by
  induction l generalizing tr with
  | nil => simp
  | cons b l ih =>
    rw [List.foldl_cons, ih, filterMap_spi_write_u8 f hf, List.flatMap_cons,
      List.filterMap_append, List.append_assoc]

theorem filterMap_spi_write_u8_array {β : Type} (f : Event → Option β)
    (hf : ∀ fmt a, f (Event.debug fmt a) = none)
    (w : World) (slave : Nat) (buff : List Nat) (tr : List Event) :
    (spi_write_u8_array w slave buff (ARRAY_SIZE buff) tr).filterMap f
      = tr.filterMap f ++ (buff.flatMap (write_trace w slave)).filterMap f := by
  unfold spi_write_u8_array ARRAY_SIZE
  rw [List.take_length, filterMap_foldl_write f hf]

theorem filterMap_cons_split {β : Type} (f : Event → Option β) (e : Event)
    (l : List Event) : (e :: l).filterMap f = [e].filterMap f ++ l.filterMap f := by
  rw [← List.filterMap_append]; rfl

theorem filterMap_init_display {β : Type} (f : Event → Option β)
    (hf : ∀ fmt a, f (Event.debug fmt a) = none)
    (w : World) (slave : Nat) (tr : List Event) :
    (init_display w slave tr).filterMap f
      = tr.filterMap f ++ (init_trace w slave).filterMap f := by
  unfold init_display init_trace command_stream
  by_cases h : w.HSD20_IPS = 0
  · simp [h, filterMap_spi_write_u8 f hf, filterMap_spi_write_u8_array f hf,
      List.filterMap_append, List.flatMap_cons]
    conv_rhs => rw [filterMap_cons_split]
    simp only [List.filterMap_append]
  · simp [h, filterMap_spi_write_u8 f hf, filterMap_spi_write_u8_array f hf,
      List.filterMap_append, List.flatMap_cons]
    conv_rhs => rw [filterMap_cons_split]
    simp only [List.filterMap_append]

theorem shifted_out_htons (b : Bool) (v : Nat) :
    shifted_out 8 (store_u16 b (htons b (v % 256) % 65536)) = [0] := by
  cases b <;> simp [shifted_out, store_u16, htons] <;> omega

theorem written_write_trace (w : World) (slave v : Nat) :
    written (write_trace w slave v) = [v % 256] := by
  simp [written, write_trace, transfer_of]

theorem steps_write_trace (w : World) (slave v : Nat) :
    steps (write_trace w slave v) = [Step.write (v % 256)] := by
  simp [steps, write_trace, transfer_of]

theorem written_init_trace (w : World) (slave : Nat) :
    written (init_trace w slave) = command_stream (decide (w.HSD20_IPS ≠ 0)) := by
  by_cases h : w.HSD20_IPS = 0 <;>
    simp [written, init_trace, command_stream, write_trace, transfer_of, h, List.flatMap_cons,
      MIPI_DCS_EXIT_SLEEP_MODE, MIPI_DCS_SET_PIXEL_FORMAT, MIPI_DCS_PIXEL_FMT_16BIT, PORCTRL,
      GCTRL, VDVVRHEN, VRHS, VDVS, VCOMS, VCMOFSET, PWCTRL1, MIPI_DCS_SET_DISPLAY_ON,
      MIPI_DCS_ENTER_INVERT_MODE]

theorem steps_init_trace (w : World) (slave : Nat) :
    steps (init_trace w slave) = Step.write MIPI_DCS_EXIT_SLEEP_MODE :: Step.delay 120 ::
      ((command_stream (decide (w.HSD20_IPS ≠ 0))).tail).map Step.write := by
  by_cases h : w.HSD20_IPS = 0 <;>
    simp [steps, init_trace, command_stream, write_trace, transfer_of, h, List.flatMap_cons,
      MIPI_DCS_EXIT_SLEEP_MODE, MIPI_DCS_SET_PIXEL_FORMAT, MIPI_DCS_PIXEL_FMT_16BIT, PORCTRL,
      GCTRL, VDVVRHEN, VRHS, VDVS, VCOMS, VCMOFSET, PWCTRL1, MIPI_DCS_SET_DISPLAY_ON,
      MIPI_DCS_ENTER_INVERT_MODE]

theorem bus_trace_flatMap_write (w : World) (slave : Nat) (l : List Nat) :
    bus_trace (l.flatMap (write_trace w slave)) = l.flatMap (write_trace w slave) := by
  induction l with
  | nil => rfl
  | cons v l ih =>
    unfold bus_trace at ih ⊢
    rw [List.flatMap_cons, List.filterMap_append, ih]
    rfl

theorem bus_trace_init_trace (w : World) (slave : Nat) :
    bus_trace (init_trace w slave)
      = (command_stream (decide (w.HSD20_IPS ≠ 0))).flatMap (write_trace w slave) := by
  have h := bus_trace_flatMap_write w slave (command_stream (decide (w.HSD20_IPS ≠ 0))).tail
  unfold bus_trace at h ⊢
  unfold init_trace
  rw [List.filterMap_append, List.filterMap_append, h]
  simp [command_stream, write_trace, transfer_of, List.flatMap_cons]

theorem effects_init_trace (w : World) (slave : Nat) :
    effects (init_trace w slave)
      = transfer_of w slave MIPI_DCS_EXIT_SLEEP_MODE :: Event.delay 120 ::
        ((command_stream (decide (w.HSD20_IPS ≠ 0))).tail).map (transfer_of w slave) := by
  by_cases h : w.HSD20_IPS = 0 <;>
    simp [effects, init_trace, command_stream, write_trace, transfer_of, h, List.flatMap_cons]

theorem st7789v_spi_startup_ret (w : World) (slave : Nat) (tr : List Event) :
    (st7789v_spi_startup w slave tr).1 = w.spi_claim_bus (tr ++ [Event.claim slave]) := by
  unfold st7789v_spi_startup
  by_cases h : w.spi_claim_bus (tr ++ [Event.claim slave]) = 0 <;> simp [h]

theorem st7789v_spi_startup_refused (w : World) (slave : Nat) (tr : List Event)
    (h : w.spi_claim_bus (tr ++ [Event.claim slave]) ≠ 0) :
    (st7789v_spi_startup w slave tr).2 = tr ++ [Event.claim slave] := by
  unfold st7789v_spi_startup
  simp [h]

theorem filterMap_st7789v_spi_startup {β : Type} (f : Event → Option β)
    (hf : ∀ fmt a, f (Event.debug fmt a) = none)
    (w : World) (slave : Nat) (tr : List Event)
    (h : w.spi_claim_bus (tr ++ [Event.claim slave]) = 0) :
    (st7789v_spi_startup w slave tr).2.filterMap f
      = tr.filterMap f ++ [Event.claim slave].filterMap f ++ (init_trace w slave).filterMap f
          ++ [Event.release slave].filterMap f := by
  unfold st7789v_spi_startup set_var
  simp only [h, ne_eq, not_true_eq_false, if_false]
  rw [List.filterMap_append, filterMap_init_display f hf, List.filterMap_append]

theorem bus_trace_st7789v_spi_startup (w : World) (slave : Nat) (tr : List Event) :
    bus_trace (st7789v_spi_startup w slave tr).2 = bus_trace tr ++
      (if w.spi_claim_bus (tr ++ [Event.claim slave]) = 0 then
        [Event.claim slave] ++
          (command_stream (decide (w.HSD20_IPS ≠ 0))).flatMap (write_trace w slave) ++
          [Event.release slave]
      else
        [Event.claim slave]) := by
  by_cases h : w.spi_claim_bus (tr ++ [Event.claim slave]) = 0
  · have key := filterMap_st7789v_spi_startup
      (fun e => match e with
        | Event.claim s => some (Event.claim s)
        | Event.release s => some (Event.release s)
        | Event.writeU8 s v => some (Event.writeU8 s v)
        | Event.xfer s n d f => some (Event.xfer s n d f)
        | _ => none) (fun _ _ => rfl) w slave tr h
    have hi := bus_trace_init_trace w slave
    unfold bus_trace at hi ⊢
    rw [key, hi, if_pos h]
    simp
  · rw [st7789v_spi_startup_refused w slave tr h, if_neg h]
    simp [bus_trace, List.filterMap_append]

/-! ## The claims -/

/-- C1: for either value of the panel variant flag, every bus handle and every
outcome of the transfers, the values `init_display` hands to `spi_write_u8` are,
in order, exactly the 27 values of the IPS command stream when the flag is set
and the 26 values of the non-IPS stream when it is 0, ending with
`MIPI_DCS_ENTER_INVERT_MODE` only for IPS. -/
theorem init_display_command_stream (w : World) (slave : Nat) (tr : List Event) :
    written (init_display w slave tr) = written tr ++
      (if w.HSD20_IPS ≠ 0 then
        [MIPI_DCS_EXIT_SLEEP_MODE,
         MIPI_DCS_SET_PIXEL_FORMAT, MIPI_DCS_PIXEL_FMT_16BIT,
         PORCTRL, 0x05, 0x05, 0x00, 0x33, 0x33,
         GCTRL, 0x75,
         VDVVRHEN, 0x01, 0xFF,
         VRHS, 0x13,
         VDVS, 0x20,
         VCOMS, 0x22,
         VCMOFSET, 0x20,
         PWCTRL1, 0xA4, 0xA1,
         MIPI_DCS_SET_DISPLAY_ON,
         MIPI_DCS_ENTER_INVERT_MODE]
      else
        [MIPI_DCS_EXIT_SLEEP_MODE,
         MIPI_DCS_SET_PIXEL_FORMAT, MIPI_DCS_PIXEL_FMT_16BIT,
         PORCTRL, 0x08, 0x08, 0x00, 0x22, 0x22,
         GCTRL, 0x35,
         VDVVRHEN, 0x01, 0xFF,
         VRHS, 0x0B,
         VDVS, 0x20,
         VCOMS, 0x20,
         VCMOFSET, 0x20,
         PWCTRL1, 0xA4, 0xA1,
         MIPI_DCS_SET_DISPLAY_ON]) := by
  have key := filterMap_init_display
    (fun e => match e with
      | Event.writeU8 _ v => some v
      | _ => none) (fun _ _ => rfl) w slave tr
  have hw := written_init_trace w slave
  unfold written at hw ⊢
  rw [key, hw]
  by_cases h : w.HSD20_IPS = 0 <;> simp [command_stream, h]

/-- C2, at the value 0x11, the first byte of the bring-up, on a little-endian
and on a big-endian host: `spi_write_u8` makes exactly one `spi_xfer` call, of
8 bits with flags `SPI_XFER_BEGIN | SPI_XFER_END`, but the byte it shifts out,
the first byte in memory of `buf8 = htons(0x11)`, is 0x00 and not 0x11. -/
theorem spi_write_u8_shifts_out_zero :
    spi_write_u8 world_ok 1 0x11 [] =
        (0, [Event.writeU8 1 0x11,
             Event.xfer 1 8 [0x00] (SPI_XFER_BEGIN ||| SPI_XFER_END)]) ∧
      store_u16 false (htons false 0x11) = [0x00, 0x11] ∧
      spi_write_u8 world_big_endian 1 0x11 [] =
        (0, [Event.writeU8 1 0x11,
             Event.xfer 1 8 [0x00] (SPI_XFER_BEGIN ||| SPI_XFER_END)]) ∧
      store_u16 true (htons true 0x11) = [0x00, 0x11] ∧
      ([0x00] : List Nat) ≠ [0x11] := by
  refine ⟨by decide, by decide, by decide, by decide, by decide⟩

/-- C3, as stated, fails: on a host whose bus cannot be claimed
(`spi_claim_bus` answers the non-zero code -16) the bring-up reports -16, yet
`st7789v_lcd_enable` returns 0. -/
theorem lcd_enable_returns_zero_when_bus_busy :
    world_busy.spi_claim_bus
        [Event.gpioSet dev0.priv.enable 1, Event.delay dev0.priv.power_on_delay,
         Event.claim dev0.parent_priv] = -16 ∧
      (-16 : Int) ≠ 0 ∧
      (st7789v_lcd_enable world_busy dev0 16 [] []).1 = 0 := by
  refine ⟨by decide, by decide, by decide⟩

/-- C3, amended: when `spi_claim_bus` answers a non-zero code `e` during
enable, the bring-up `st7789v_spi_startup` reports `e` and performs no transfer
and no release, while `st7789v_lcd_enable` discards that result and returns
0. -/
theorem lcd_enable_discards_claim_error (w : World) (dev : udevice) (bpp : Int)
    (edid : List Nat) (tr : List Event) (e : Int) (he : e ≠ 0)
    (hc : w.spi_claim_bus (tr ++ [Event.gpioSet dev.priv.enable 1,
        Event.delay dev.priv.power_on_delay] ++ [Event.claim dev.parent_priv]) = e) :
    (st7789v_spi_startup w dev.parent_priv (tr ++ [Event.gpioSet dev.priv.enable 1,
        Event.delay dev.priv.power_on_delay])).1 = e ∧
      (st7789v_lcd_enable w dev bpp edid tr).1 = 0 ∧
      (st7789v_lcd_enable w dev bpp edid tr).2 = tr ++ [Event.gpioSet dev.priv.enable 1,
        Event.delay dev.priv.power_on_delay, Event.claim dev.parent_priv] := by
  have hne : w.spi_claim_bus (tr ++ [Event.gpioSet dev.priv.enable 1,
      Event.delay dev.priv.power_on_delay] ++ [Event.claim dev.parent_priv]) ≠ 0 := by
    rw [hc]; exact he
  refine ⟨?_, rfl, ?_⟩
  · rw [st7789v_spi_startup_ret, hc]
  · have h2 := st7789v_spi_startup_refused w dev.parent_priv _ hne
    simp only [st7789v_lcd_enable, dev_get_parent_priv, dev_get_priv, List.append_assoc,
      List.singleton_append, List.cons_append, List.nil_append] at h2 ⊢
    exact h2

/-- Witness of `lcd_enable_discards_claim_error` on the busy host. -/
theorem lcd_enable_discards_claim_error_witness :
    (st7789v_spi_startup world_busy dev0.parent_priv ([] ++ [Event.gpioSet dev0.priv.enable 1,
        Event.delay dev0.priv.power_on_delay])).1 = -16 ∧
      (st7789v_lcd_enable world_busy dev0 16 [] []).1 = 0 ∧
      (st7789v_lcd_enable world_busy dev0 16 [] []).2 = [] ++ [Event.gpioSet dev0.priv.enable 1,
        Event.delay dev0.priv.power_on_delay, Event.claim dev0.parent_priv] :=
  lcd_enable_discards_claim_error world_busy dev0 16 [] [] (-16) (by decide) (by decide)

/-- C4: in every run of `st7789v_spi_startup`, whatever `spi_claim_bus` and the
transfers answer: if the claim succeeds, the bus events of the run are the
claim, then the write and transfer of every byte of the command stream, then
one `spi_release_bus` as the last bus event; if the claim fails, the only bus
event is the claim attempt, with no transfer and no release. -/
theorem spi_startup_bus_events (w : World) (slave : Nat) (tr : List Event) :
    bus_trace (st7789v_spi_startup w slave tr).2 = bus_trace tr ++
      (if w.spi_claim_bus (tr ++ [Event.claim slave]) = 0 then
        [Event.claim slave] ++
          (command_stream (decide (w.HSD20_IPS ≠ 0))).flatMap (write_trace w slave) ++
          [Event.release slave]
      else
        [Event.claim slave]) :=
  bus_trace_st7789v_spi_startup w slave tr

/-- C5: for every device record and every power-on delay `d`, 0 included, the
hardware effects of `st7789v_lcd_enable` are, in order: the enable GPIO set to
1, one delay of `d` ms, then the bring-up run: `spi_claim_bus` and, when the
claim succeeds, the transfers of the command stream (with the 120 ms delay
after the first) and `spi_release_bus`.  No bus event comes before the
power-on delay. -/
theorem lcd_enable_effects (w : World) (dev : udevice) (bpp : Int) (edid : List Nat)
    (tr : List Event) :
    effects (st7789v_lcd_enable w dev bpp edid tr).2 = effects tr ++
      [Event.gpioSet dev.priv.enable 1,
       Event.delay dev.priv.power_on_delay,
       Event.claim dev.parent_priv] ++
      (if w.spi_claim_bus (tr ++ [Event.gpioSet dev.priv.enable 1,
          Event.delay dev.priv.power_on_delay, Event.claim dev.parent_priv]) = 0 then
        transfer_of w dev.parent_priv MIPI_DCS_EXIT_SLEEP_MODE :: Event.delay 120 ::
          ((command_stream (decide (w.HSD20_IPS ≠ 0))).tail).map (transfer_of w dev.parent_priv)
          ++ [Event.release dev.parent_priv]
      else []) := by
  have happ : tr ++ [Event.gpioSet dev.priv.enable 1] ++ [Event.delay dev.priv.power_on_delay]
      ++ [Event.claim dev.parent_priv] = tr ++ [Event.gpioSet dev.priv.enable 1,
          Event.delay dev.priv.power_on_delay, Event.claim dev.parent_priv] := by simp
  simp only [st7789v_lcd_enable, dev_get_parent_priv, dev_get_priv]
  by_cases h : w.spi_claim_bus (tr ++ [Event.gpioSet dev.priv.enable 1,
      Event.delay dev.priv.power_on_delay, Event.claim dev.parent_priv]) = 0
  · have h2 := h
    rw [← happ] at h2
    have key := filterMap_st7789v_spi_startup
      (fun e => match e with
        | Event.claim s => some (Event.claim s)
        | Event.release s => some (Event.release s)
        | Event.xfer s n d f => some (Event.xfer s n d f)
        | Event.delay n => some (Event.delay n)
        | Event.gpioSet d v => some (Event.gpioSet d v)
        | _ => none) (fun _ _ => rfl) w dev.parent_priv _ h2
    have hi := effects_init_trace w dev.parent_priv
    unfold effects at hi ⊢
    rw [key, hi, if_pos h]
    simp [List.filterMap_append]
  · have h2 := h
    rw [← happ] at h2
    rw [st7789v_spi_startup_refused w dev.parent_priv _ h2, if_neg h]
    simp [effects, List.filterMap_append]

/-- C6: in every run of `init_display`, whatever the transfers answer (the
exit-sleep transfer included), the byte writes and delays are: the write of
`MIPI_DCS_EXIT_SLEEP_MODE`, then the one delay, of 120 ms, then only byte
writes (the rest of the command stream). -/
theorem init_display_single_delay (w : World) (slave : Nat) (tr : List Event) :
    steps (init_display w slave tr) = steps tr ++
      Step.write MIPI_DCS_EXIT_SLEEP_MODE :: Step.delay 120 ::
        ((command_stream (decide (w.HSD20_IPS ≠ 0))).tail).map Step.write := by
  have key := filterMap_init_display
    (fun e => match e with
      | Event.writeU8 _ v => some (Step.write v)
      | Event.delay n => some (Step.delay n)
      | _ => none) (fun _ _ => rfl) w slave tr
  have hs := steps_init_trace w slave
  unfold steps at hs ⊢
  rw [key, hs]

/-- C7: `st7789v_spi_startup` returns what `spi_claim_bus` answered (0 on
success, the claim's error code otherwise), and when the claim succeeds the
results of the byte transfers change nothing: under any other assignment
`xfer` of transfer results the run attempts the same byte writes, the whole
command stream in order, and returns the same value 0. -/
theorem spi_startup_reports_only_claim_error (w : World) (xfer : List Event → Int)
    (slave : Nat) (tr : List Event) :
    (st7789v_spi_startup w slave tr).1
        = (if w.spi_claim_bus (tr ++ [Event.claim slave]) = 0 then 0
           else w.spi_claim_bus (tr ++ [Event.claim slave])) ∧
      (w.spi_claim_bus (tr ++ [Event.claim slave]) = 0 →
        written (st7789v_spi_startup w slave tr).2
            = written tr ++ command_stream (decide (w.HSD20_IPS ≠ 0)) ∧
          written (st7789v_spi_startup { w with spi_xfer := xfer } slave tr).2
            = written (st7789v_spi_startup w slave tr).2 ∧
          (st7789v_spi_startup w slave tr).1 = 0 ∧
          (st7789v_spi_startup { w with spi_xfer := xfer } slave tr).1 = 0) := by
  have hproj : ∀ v : World, v.spi_claim_bus (tr ++ [Event.claim slave]) = 0 →
      written (st7789v_spi_startup v slave tr).2
        = written tr ++ command_stream (decide (v.HSD20_IPS ≠ 0)) := by
    intro v hv
    have key := filterMap_st7789v_spi_startup
      (fun e => match e with
        | Event.writeU8 _ v => some v
        | _ => none) (fun _ _ => rfl) v slave tr hv
    have hi := written_init_trace v slave
    unfold written at hi ⊢
    rw [key, hi]
    simp
  refine ⟨?_, ?_⟩
  · rw [st7789v_spi_startup_ret]
    by_cases h : w.spi_claim_bus (tr ++ [Event.claim slave]) = 0 <;> simp [h]
  · intro h
    refine ⟨hproj w h, ?_, ?_, ?_⟩
    · rw [hproj w h, hproj { w with spi_xfer := xfer } h]
    · rw [st7789v_spi_startup_ret, h]
    · rw [st7789v_spi_startup_ret]
      exact h

/-- Witness of `spi_startup_reports_only_claim_error`: succeeding transfers
against transfers that all fail. -/
theorem spi_startup_reports_only_claim_error_witness :
    written (st7789v_spi_startup world_ok 1 []).2
        = written [] ++ command_stream (decide (world_ok.HSD20_IPS ≠ 0)) ∧
      written (st7789v_spi_startup world_noisy 1 []).2
        = written (st7789v_spi_startup world_ok 1 []).2 ∧
      (st7789v_spi_startup world_ok 1 []).1 = 0 ∧
      (st7789v_spi_startup world_noisy 1 []).1 = 0 :=
  (spi_startup_reports_only_claim_error world_ok world_noisy.spi_xfer 1 []).2 (by decide)

/-- C8: for every result `r` of the enable-GPIO lookup,
`st7789v_ofdata_to_platdata` returns 0 exactly when `r = 0` or `r = -ENOENT`,
and then goes on to read the power-on delay; for every other `r` it returns
that same non-zero `r`, stops after the lookup and its warning (the power-on
delay is not read) and leaves the stored power-on delay as it was. -/
theorem ofdata_gpio_lookup (w : World) (dev : udevice) (tr : List Event) (r : Int)
    (hr : (w.gpio_request_by_name
      (tr ++ [Event.gpioRequest "enable-gpios" 0 GPIOD_IS_OUT])).1 = r) :
    ((st7789v_ofdata_to_platdata w dev tr).1 = 0 ↔ (r = 0 ∨ r = -ENOENT)) ∧
      (r = 0 →
        (st7789v_ofdata_to_platdata w dev tr).2.2
          = tr ++ [Event.gpioRequest "enable-gpios" 0 GPIOD_IS_OUT,
                   Event.readU32 "power-on-delay" 10]) ∧
      (r = -ENOENT →
        (st7789v_ofdata_to_platdata w dev tr).2.2
          = tr ++ [Event.gpioRequest "enable-gpios" 0 GPIOD_IS_OUT,
                   Event.debug "%s: Warning: cannot get enable GPIO: ret=%d\n" r,
                   Event.readU32 "power-on-delay" 10]) ∧
      (r ≠ 0 → r ≠ -ENOENT →
        (st7789v_ofdata_to_platdata w dev tr).1 = r ∧
          (st7789v_ofdata_to_platdata w dev tr).2.2
            = tr ++ [Event.gpioRequest "enable-gpios" 0 GPIOD_IS_OUT,
                     Event.debug "%s: Warning: cannot get enable GPIO: ret=%d\n" r] ∧
          (st7789v_ofdata_to_platdata w dev tr).2.1.priv.power_on_delay
            = dev.priv.power_on_delay) := by
  subst hr
  have hE : ENOENT ≠ 0 := by decide
  have hE2 : -ENOENT ≠ 0 := by decide
  unfold st7789v_ofdata_to_platdata
  refine ⟨?_, ?_, ?_, ?_⟩
  · by_cases h0 : (w.gpio_request_by_name
        (tr ++ [Event.gpioRequest "enable-gpios" 0 GPIOD_IS_OUT])).1 = 0
    · simp [h0]
    · by_cases h1 : (w.gpio_request_by_name
          (tr ++ [Event.gpioRequest "enable-gpios" 0 GPIOD_IS_OUT])).1 = -ENOENT
      · simp [h1, hE]
      · simp [h0, h1, log_ret]
  · intro h0
    simp [h0]
  · intro h1
    simp [h1, hE]
  · intro h0 h1
    simp [h0, h1, log_ret, dev_get_priv]

/-- Witness of `ofdata_gpio_lookup`: a lookup answering `-22`, and a lookup
answering `-ENOENT`. -/
theorem ofdata_gpio_lookup_witness :
    ((st7789v_ofdata_to_platdata world_bad_gpio dev0 []).1 = -22 ∧
      (st7789v_ofdata_to_platdata world_bad_gpio dev0 []).2.2
        = [] ++ [Event.gpioRequest "enable-gpios" 0 GPIOD_IS_OUT,
                 Event.debug "%s: Warning: cannot get enable GPIO: ret=%d\n" (-22)] ∧
      (st7789v_ofdata_to_platdata world_bad_gpio dev0 []).2.1.priv.power_on_delay
        = dev0.priv.power_on_delay) ∧
    (st7789v_ofdata_to_platdata world_no_gpio dev0 []).1 = 0 :=
  ⟨(ofdata_gpio_lookup world_bad_gpio dev0 [] (-22) (by decide)).2.2.2 (by decide) (by decide),
   (ofdata_gpio_lookup world_no_gpio dev0 [] (-ENOENT) (by decide)).1.mpr (Or.inr rfl)⟩

/-- C9: in every invocation of `do_sitronixset`: if the device lookup answers a
non-zero code `e`, the handler returns `e`; if the device is found without a
bus handle, it returns the non-zero code `-ENODEV`; in both cases it prints one
diagnostic and the trace gains no bus event.  Otherwise it runs
`st7789v_spi_startup` on the device's bus handle and returns 0. -/
theorem do_sitronixset_outcomes (w : World) (flag argc : Int) (argv : List String)
    (tr : List Event) (e : Int) (dev : udevice)
    (hl : w.uclass_get_device_by_driver (tr ++ [Event.lookup]) = (e, dev)) :
    (e ≠ 0 →
        do_sitronixset w flag argc argv tr
          = (e, tr ++ [Event.lookup,
              Event.print "do_sitronixset: Could not get st7789v device\n"]) ∧
        bus_trace (do_sitronixset w flag argc argv tr).2 = bus_trace tr) ∧
      (e = 0 → dev.parent_priv = 0 →
        do_sitronixset w flag argc argv tr
          = (-ENODEV, tr ++ [Event.lookup, Event.print "do_sitronixset: No slave data\n"]) ∧
        -ENODEV ≠ 0 ∧
        bus_trace (do_sitronixset w flag argc argv tr).2 = bus_trace tr) ∧
      (e = 0 → dev.parent_priv ≠ 0 →
        do_sitronixset w flag argc argv tr
          = (0, (st7789v_spi_startup w dev.parent_priv (tr ++ [Event.lookup])).2) ∧
        bus_trace (do_sitronixset w flag argc argv tr).2 = bus_trace tr ++
          (if w.spi_claim_bus (tr ++ [Event.lookup, Event.claim dev.parent_priv]) = 0 then
            [Event.claim dev.parent_priv] ++
              (command_stream (decide (w.HSD20_IPS ≠ 0))).flatMap
                (write_trace w dev.parent_priv) ++
              [Event.release dev.parent_priv]
          else
            [Event.claim dev.parent_priv])) := by
  refine ⟨?_, ?_, ?_⟩
  · intro he
    have hres : do_sitronixset w flag argc argv tr
        = (e, tr ++ [Event.lookup,
            Event.print "do_sitronixset: Could not get st7789v device\n"]) := by
      simp [do_sitronixset, hl, he]
    rw [hres]
    exact ⟨rfl, by simp [bus_trace, List.filterMap_append]⟩
  · intro he hs
    have hres : do_sitronixset w flag argc argv tr
        = (-ENODEV, tr ++ [Event.lookup, Event.print "do_sitronixset: No slave data\n"]) := by
      simp [do_sitronixset, hl, he, hs, dev_get_parent_priv]
    rw [hres]
    exact ⟨rfl, by decide, by simp [bus_trace, List.filterMap_append]⟩
  · intro he hs
    have hres : do_sitronixset w flag argc argv tr
        = (0, (st7789v_spi_startup w dev.parent_priv (tr ++ [Event.lookup])).2) := by
      simp [do_sitronixset, hl, he, hs, dev_get_parent_priv]
    rw [hres]
    refine ⟨rfl, ?_⟩
    have hb := bus_trace_st7789v_spi_startup w dev.parent_priv (tr ++ [Event.lookup])
    simp only [List.append_assoc, List.singleton_append] at hb
    rw [hb]
    simp [bus_trace, List.filterMap_append]

/-- Witness of `do_sitronixset_outcomes`: no bound device, a device without a
bus handle, and a device with bus handle 1. -/
theorem do_sitronixset_outcomes_witness :
    (do_sitronixset world_no_device 0 1 ["sitronixset"] []
        = (-19, [] ++ [Event.lookup,
            Event.print "do_sitronixset: Could not get st7789v device\n"]) ∧
      bus_trace (do_sitronixset world_no_device 0 1 ["sitronixset"] []).2 = bus_trace []) ∧
    (do_sitronixset world_no_slave 0 1 ["sitronixset"] []
        = (-ENODEV, [] ++ [Event.lookup, Event.print "do_sitronixset: No slave data\n"]) ∧
      -ENODEV ≠ 0 ∧
      bus_trace (do_sitronixset world_no_slave 0 1 ["sitronixset"] []).2 = bus_trace []) ∧
    (do_sitronixset world_ok 0 1 ["sitronixset"] []).1 = 0 :=
  ⟨(do_sitronixset_outcomes world_no_device 0 1 ["sitronixset"] [] (-19) dev0 rfl).1
      (by decide),
   (do_sitronixset_outcomes world_no_slave 0 1 ["sitronixset"] [] 0
      { dev0 with parent_priv := 0 } rfl).2.1 rfl rfl,
   congrArg Prod.fst
     ((do_sitronixset_outcomes world_ok 0 1 ["sitronixset"] [] 0 dev0 rfl).2.2 rfl
       (by decide)).1⟩

/-- C10: whenever `st7789v_ofdata_to_platdata` returns 0, the stored
`power_on_delay` is the value `x` of the `power-on-delay` field when the
description has it (any 32-bit `x`, 0 included) and 10 when the description
omits it; 10 is not the 120 of `PWR_ON_DELAY_MSECS`. -/
theorem ofdata_power_on_delay (w : World) (dev : udevice) (tr : List Event)
    (h : (st7789v_ofdata_to_platdata w dev tr).1 = 0) :
    (∀ x : Nat, x < 4294967296 → dev.node "power-on-delay" = some x →
        (st7789v_ofdata_to_platdata w dev tr).2.1.priv.power_on_delay = x) ∧
      (dev.node "power-on-delay" = none →
        (st7789v_ofdata_to_platdata w dev tr).2.1.priv.power_on_delay = 10) ∧
      (10 : Nat) ≠ PWR_ON_DELAY_MSECS := by
  have hread : (st7789v_ofdata_to_platdata w dev tr).2.1.priv.power_on_delay
      = dev_read_u32_default dev "power-on-delay" 10 := by
    have hE : ENOENT ≠ 0 := by decide
    unfold st7789v_ofdata_to_platdata at h ⊢
    by_cases h0 : (w.gpio_request_by_name
        (tr ++ [Event.gpioRequest "enable-gpios" 0 GPIOD_IS_OUT])).1 = 0
    · simp [h0, dev_read_u32_default]
    · by_cases h1 : (w.gpio_request_by_name
          (tr ++ [Event.gpioRequest "enable-gpios" 0 GPIOD_IS_OUT])).1 = -ENOENT
      · simp [h1, hE, dev_read_u32_default]
      · simp [h0, h1, log_ret] at h
  refine ⟨?_, ?_, by decide⟩
  · intro x hx hnode
    rw [hread]
    simp [dev_read_u32_default, hnode, Nat.mod_eq_of_lt hx]
  · intro hnode
    rw [hread]
    simp [dev_read_u32_default, hnode]

/-- Witness of `ofdata_power_on_delay`: a description with `power-on-delay = 0`
replacing a stale 77, and a description without the field on a host whose
enable GPIO is not found. -/
theorem ofdata_power_on_delay_witness :
    (st7789v_ofdata_to_platdata world_ok dev_delay0 []).2.1.priv.power_on_delay = 0 ∧
      (st7789v_ofdata_to_platdata world_no_gpio dev0 []).2.1.priv.power_on_delay = 10 :=
  ⟨(ofdata_power_on_delay world_ok dev_delay0 [] (by decide)).1 0 (by decide) (by decide),
   (ofdata_power_on_delay world_no_gpio dev0 [] (by decide)).2.1 (by decide)⟩

end St7789v
